import Mathlib

/-!
Shallow embedding of `homework.py`: a Telegram homework-status notifier.
The program polls a remote API in an infinite loop, formats the first
homework record of each successful response, and forwards novel verdict
strings (deduplicated against the previously reported message) to a chat.

External collaborators (the HTTP transport and the Telegram bot) are
modelled by oracle values describing the outcome the collaborator would
produce; everything else is translated directly from the source.
-/

set_option linter.unusedVariables false

namespace HomeworkBot

/-- Python values as they occur in decoded JSON payloads and environment
variables: `None`, booleans, integers, strings, lists and dicts (a dict is
a key-ordered association list; Python dicts have unique keys). -/
inductive PyVal where
  | none
  | bool (b : Bool)
  | int (n : Int)
  | str (s : String)
  | list (xs : List PyVal)
  | dict (kvs : List (String × PyVal))

/-- The exception classes raised in `homework.py`.  All of them are
subclasses of Python's `Exception`, so all are caught by the poll loop's
blanket `except Exception` handler.  `other` stands for an arbitrary
further `Exception` subclass raised by an external collaborator (e.g. a
Telegram API error), identified by its class name and message. -/
inductive PyExn where
  | typeError (msg : String)
  | keyError (msg : String)
  | valueError (msg : String)
  | connectionError (msg : String)
  | invalidResponseCode (msg : String)
  | other (cls msg : String)
deriving Repr, DecidableEq

/-- Python's `str(exn)`: for `KeyError` the argument is shown with `repr`,
i.e. quoted; the other classes show their message verbatim. -/
def exnStr : PyExn → String
  | .keyError m => "\x27" ++ m ++ "\x27"
  | .typeError m => m
  | .valueError m => m
  | .connectionError m => m
  | .invalidResponseCode m => m
  | .other _ m => m

/-- The Python type name of a value, as it appears in `TypeError` texts. -/
def pyTypeName : PyVal → String
  | .none => "NoneType"
  | .bool _ => "bool"
  | .int _ => "int"
  | .str _ => "str"
  | .list _ => "list"
  | .dict _ => "dict"

/-- Python's `str()` rendering used by f-string interpolation.  Scalar
values are rendered exactly as Python renders them; the rendering of
composite values (lists/dicts) is abbreviated here, since no statement in
this development interpolates a composite value into a message. -/
def pyStr : PyVal → String
  | .none => "None"
  | .bool true => "True"
  | .bool false => "False"
  | .int n => toString n
  | .str s => s
  | .list _ => "[...]"
  | .dict _ => "\x7b...\x7d"

/-- Python's `key in value` membership test for a string key: key lookup
on dicts, element equality on lists (a string equals only an equal
string), substring test on strings, and `TypeError` otherwise. -/
def pyIn (key : String) (v : PyVal) : Except PyExn Bool :=
  match v with
  | .dict kvs => .ok (kvs.lookup key).isSome
  | .list xs => .ok (xs.any fun x => match x with | .str s => s == key | _ => false)
  | .str s =>
      .ok ((List.range (s.length + 1)).any fun i =>
        key.toList.isPrefixOf (s.toList.drop i))
  | w => .error (.typeError ("argument of type " ++ pyTypeName w ++ " is not iterable"))

/-- Python's `value[key]` subscript for a string key. -/
def pyGetItem (v : PyVal) (key : String) : Except PyExn PyVal :=
  match v with
  | .dict kvs =>
      match kvs.lookup key with
      | some w => .ok w
      | Option.none => .error (.keyError key)
  | .str _ => .error (.typeError "string indices must be integers")
  | .list _ => .error (.typeError "list indices must be integers or slices, not str")
  | w => .error (.typeError (pyTypeName w ++ " object is not subscriptable"))

/-- `dict.get(key, default)` on a value known to be used as a mapping;
non-dicts fall back to the default (this case is unreachable where used,
because `check_response` has already established the value is a dict). -/
def pyDictGetD (v : PyVal) (key : String) (dflt : PyVal) : PyVal :=
  match v with
  | .dict kvs => (kvs.lookup key).getD dflt
  | _ => dflt

/-- `HOMEWORK_VERDICTS`: the static verdict table of the module. -/
def HOMEWORK_VERDICTS : List (String × String) :=
  [("approved", "Работа проверена: ревьюеру всё понравилось. Ура!"),
   ("reviewing", "Работа взята на проверку ревьюером."),
   ("rejected", "Работа проверена: у ревьюера есть замечания.")]

/-- Python's `value in HOMEWORK_VERDICTS` (dict key membership): only a
string can equal a string key; unhashable values raise `TypeError`. -/
def inVerdicts (v : PyVal) : Except PyExn Bool :=
  match v with
  | .str s => .ok (HOMEWORK_VERDICTS.lookup s).isSome
  | .list _ => .error (.typeError "unhashable type: list")
  | .dict _ => .error (.typeError "unhashable type: dict")
  | _ => .ok false

/-- `RETRY_PERIOD`: the fixed sleep between poll cycles, in seconds. -/
def RETRY_PERIOD : Nat := 600

/-- `check_tokens` inspects the three environment-sourced credentials in
the fixed order `PRACTICUM_TOKEN`, `TELEGRAM_TOKEN`, `TELEGRAM_CHAT_ID`.
An environment variable is modelled as `Option String` (`none` = unset);
Python's `if not token_value` is true for `None` and for the empty
string. -/
def tokenFalsy : Option String → Bool
  | Option.none => true
  | some s => s == ""

/-- The names collected in `missing_tokens` by the loop in `check_tokens`. -/
def missing_tokens (practicum telegram chatId : Option String) : List String :=
  ([("PRACTICUM_TOKEN", practicum), ("TELEGRAM_TOKEN", telegram),
    ("TELEGRAM_CHAT_ID", chatId)].filter fun p => tokenFalsy p.2).map Prod.fst

/-- Outcome of `check_tokens`: the `logger.critical` line it emits, if
any, and its result (`KeyError` when some credential is falsy). -/
structure CheckTokensResult where
  criticalLog : Option String
  result : Except PyExn Unit
deriving Repr

/-- `check_tokens`: logs all missing credential names and raises
`KeyError` when any credential is unset or empty. -/
def check_tokens (practicum telegram chatId : Option String) : CheckTokensResult :=
  let missing := missing_tokens practicum telegram chatId
  if missing.isEmpty then ⟨Option.none, .ok ()⟩
  else ⟨some ("Отсутствуют следующие токены: " ++ String.intercalate ", " missing),
        .error (.keyError "Not all tokens are present.")⟩

/-- `main` calls `check_tokens()` before constructing the bot and entering
`while True`; an exception there propagates, so the loop is entered iff
`check_tokens` returned normally. -/
def main_enters_loop (practicum telegram chatId : Option String) : Bool :=
  match (check_tokens practicum telegram chatId).result with
  | .ok _ => true
  | .error _ => false

/-- Oracle for the one delivery attempt `send_message` can make: the bot
either delivers, or raises an exception that is an instance of
`telebot.ExceptionHandler` (the only class the function catches), or
raises any other `Exception` subclass (e.g. a Telegram API error). -/
inductive SendOutcome where
  | success
  | raisesEH (msg : String)
  | raisesOther (cls msg : String)
deriving Repr, DecidableEq

/-- `send_message`: `try: bot.send_message(...) except telebot.ExceptionHandler:
return False` then `return True`.  Only exceptions matching the
`telebot.ExceptionHandler` clause are converted to `False`; any other
exception from the transport propagates to the caller. -/
def send_message : SendOutcome → Except PyExn Bool
  | .success => .ok true
  | .raisesEH _ => .ok false
  | .raisesOther cls msg => .error (.other cls msg)

/-- Oracle for one HTTP poll: `requests.get` either raises a
`RequestException` or returns a response with a status code, reason,
body text, and decoded JSON payload. -/
inductive HttpOutcome where
  | raises (msg : String)
  | resp (status : Nat) (reason text : String) (json : PyVal)

/-- `get_api_answer`: on a transport failure the code builds the
`ConnectionError` text with `'... {e} ...'.format(e, **request_data)`;
the format string names the field `e` but `e` is passed positionally,
so the `.format` call itself raises `KeyError('e')` inside the handler
and that `KeyError` is what propagates.  On a non-200 status it raises
`InvalidResponseCodeException`; otherwise it returns the decoded JSON. -/
def get_api_answer (timestamp : PyVal) (o : HttpOutcome) : Except PyExn PyVal :=
  match o with
  | .raises _ => .error (.keyError "e")
  | .resp status reason text json =>
      if status ≠ 200 then
        .error (.invalidResponseCode
          ("Yandex API returned " ++ toString status ++ ", reason: " ++ reason ++
           ", response text: " ++ text))
      else .ok json

/-- `check_response`: the payload must be a dict, must contain the key
`homeworks`, and that value must be a list; the list (possibly empty) is
returned. -/
def check_response (response : PyVal) : Except PyExn (List PyVal) :=
  match response with
  | .dict kvs =>
      match kvs.lookup "homeworks" with
      | Option.none =>
          .error (.keyError "Failed to get \"homeworks\" in response JSON object")
      | some (.list xs) => .ok xs
      | some _ => .error (.typeError "\"response[homeworks]\" is not a list]\"")
  | _ => .error (.typeError "Response is not a dictionary")

/-- `HOMEWORK_VERDICTS.get(status)` as used in `parse_status`: a plain
lookup, rendered as Python would render it in the f-string (`None` when
absent — unreachable after the membership check). -/
def verdictText (status : PyVal) : String :=
  match status with
  | .str s => ((HOMEWORK_VERDICTS.lookup s).getD "None")
  | _ => "None"

/-- `parse_status`: checks `status` presence, membership of its value in
the verdict table, then `homework_name` presence, and only then builds
the notification string. -/
def parse_status (homework : PyVal) : Except PyExn String :=
  match pyIn "status" homework with
  | .error e => .error e
  | .ok hasStatus =>
    if !hasStatus then
      .error (.keyError "Failed to get \" homework status\" in response object")
    else
      match pyGetItem homework "status" with
      | .error e => .error e
      | .ok status =>
        match inVerdicts status with
        | .error e => .error e
        | .ok isKnown =>
          if !isKnown then
            .error (.valueError ("Unknown homework status: " ++ pyStr status))
          else
            match pyIn "homework_name" homework with
            | .error e => .error e
            | .ok hasName =>
              if !hasName then
                .error (.keyError "\"homework_name\" key not found.")
              else
                match pyGetItem homework "homework_name" with
                | .error e => .error e
                | .ok homework_name =>
                  .ok ("Изменился статус проверки работы \"" ++ pyStr homework_name
                        ++ "\". " ++ verdictText status)

/-- The loop-local state of `main`: the poll cursor `timestamp` (a
`PyVal`, since `response.get('timestamp', timestamp)` rebinds it to
whatever JSON value the response carries) and `previous_report`. -/
structure LoopState where
  timestamp : PyVal
  previous_report : String

/-- Observable outcome of one iteration of the `while True` body:
the state after the iteration, the messages for which delivery was
attempted, the messages actually delivered, and — when an exception
escaped the `except` handler itself — the exception that terminates the
loop (after the `finally` sleep). -/
structure CycleResult where
  state : LoopState
  attempts : List String
  delivered : List String
  crashed : Option PyExn

/-- The `try` body of one loop iteration (lines 138-147): poll, validate,
skip empty lists (`continue`), format the first record, and deliver a
novel verdict; a successful novel delivery updates `previous_report` and
rebinds `timestamp` to `response.get('timestamp', timestamp)`.  Returns
the new state or the exception that reaches the `except` handler, plus
the delivery attempts made and the messages delivered. -/
def try_body (st : LoopState) (http : HttpOutcome) (sendV : SendOutcome) :
    Except PyExn LoopState × List String × List String :=
  match get_api_answer st.timestamp http with
  | .error e => (.error e, [], [])
  | .ok response =>
    match check_response response with
    | .error e => (.error e, [], [])
    | .ok [] => (.ok st, [], [])
    | .ok (homework :: _) =>
      match parse_status homework with
      | .error e => (.error e, [], [])
      | .ok verdict =>
        if verdict ≠ st.previous_report then
          match send_message sendV with
          | .error e => (.error e, [verdict], [])
          | .ok false => (.ok st, [verdict], [])
          | .ok true =>
              (.ok ⟨pyDictGetD response "timestamp" st.timestamp, verdict⟩,
               [verdict], [verdict])
        else (.ok st, [], [])

/-- The blanket `except Exception` handler of the loop body (lines
148-154): formats the diagnostic from the caught exception, delivers it
when it differs from `previous_report`, and updates `previous_report`
only when that delivery succeeds.  The poll cursor is never touched
here.  An exception raised by `send_message` inside this handler is
caught by nothing and terminates the loop (`crashed`).  `att`/`del` are
the attempts/deliveries already made by the `try` body. -/
def except_handler (st : LoopState) (e : PyExn) (sendE : SendOutcome)
    (att del : List String) : CycleResult :=
  let message := "Сбой в работе программы: " ++ exnStr e
  if message ≠ st.previous_report then
    match send_message sendE with
    | .ok true => ⟨⟨st.timestamp, message⟩, att ++ [message], del ++ [message], Option.none⟩
    | .ok false => ⟨st, att ++ [message], del, Option.none⟩
    | .error e2 => ⟨st, att ++ [message], del, some e2⟩
  else ⟨st, att, del, Option.none⟩

/-- One full iteration of `main`'s `while True` body (lines 137-156):
the `try` body followed, when it raises, by the blanket handler.  The
`finally: time.sleep(RETRY_PERIOD)` runs in every case, crash included;
the loop begins a new iteration iff `crashed = none`.  `sendV`/`sendE`
are the oracle outcomes of the (at most one each) verdict-path and
error-path delivery attempts. -/
def main_cycle (st : LoopState) (http : HttpOutcome) (sendV sendE : SendOutcome) :
    CycleResult :=
  match try_body st http sendV with
  | (.ok st', att, del) => ⟨st', att, del, Option.none⟩
  | (.error e, att, del) => except_handler st e sendE att del

/-- The formatted verdict a cycle would produce from its HTTP outcome:
`some v` iff the poll succeeds, validates, has a non-empty homeworks
list, and the first record formats to `v`. -/
def cycleVerdict (timestamp : PyVal) (http : HttpOutcome) : Option String :=
  match get_api_answer timestamp http with
  | .error _ => Option.none
  | .ok response =>
    match check_response response with
    | .error _ => Option.none
    | .ok [] => Option.none
    | .ok (homework :: _) => (parse_status homework).toOption

/-- Spec §8, Scenario A: the homework record of the first cycle. -/
def scenarioAHomework : PyVal :=
  .dict [("status", .str "reviewing"), ("homework_name", .str "proj1")]

/-- Spec §8, Scenario A: the successful payload with a server timestamp. -/
def scenarioAPayload : PyVal :=
  .dict [("homeworks", .list [scenarioAHomework]), ("timestamp", .int 1000)]

/-- Spec §8, Scenario A: an HTTP 200 outcome carrying the payload. -/
def scenarioAHttp : HttpOutcome := .resp 200 "OK" "" scenarioAPayload

/-- The notification string `parse_status` builds for Scenario A. -/
def scenarioAVerdict : String :=
  "Изменился статус проверки работы \"proj1\". Работа взята на проверку ревьюером."

/-- The Scenario A fixtures fit together as intended. -/
theorem scenarioA_verdict_eq :
    cycleVerdict (PyVal.int 0) scenarioAHttp = some scenarioAVerdict := rfl

/-- The `except` handler never touches the poll cursor. -/
theorem except_handler_timestamp (st : LoopState) (e : PyExn) (sendE : SendOutcome)
    (att del : List String) :
    (except_handler st e sendE att del).state.timestamp = st.timestamp := by
  simp only [except_handler]
  split
  · cases hs : send_message sendE with
    | ok b => cases b <;> rfl
    | error e2 => rfl
  · rfl

/-- When the underlying bot call would not raise an uncaught exception,
the `except` handler returns normally. -/
theorem except_handler_no_crash (st : LoopState) (e : PyExn) (sendE : SendOutcome)
    (att del : List String) (h : ∀ cls msg, sendE ≠ .raisesOther cls msg) :
    (except_handler st e sendE att del).crashed = Option.none := by
  simp only [except_handler]
  split
  · cases sendE with
    | success => rfl
    | raisesEH m => rfl
    | raisesOther cls msg => exact absurd rfl (h cls msg)
  · rfl

/-- If the `except` handler changed `previous_report`, the diagnostic it
set was delivered (and nothing had been delivered by the `try` body). -/
theorem except_handler_delivered (st : LoopState) (e : PyExn) (sendE : SendOutcome)
    (att : List String)
    (h : (except_handler st e sendE att []).state.previous_report ≠ st.previous_report) :
    (except_handler st e sendE att []).delivered
      = [(except_handler st e sendE att []).state.previous_report] := by
  revert h
  simp only [except_handler]
  split
  · cases hs : send_message sendE with
    | ok b =>
        cases b with
        | false => intro h; exact absurd rfl h
        | true => intro h; rfl
    | error e2 => intro h; exact absurd rfl h
  · intro h; exact absurd rfl h

/-- A delivery failure that `send_message` converts to `False` leaves the
handler's state and deliveries untouched. -/
theorem except_handler_eh (st : LoopState) (e : PyExn) (m : String)
    (att del : List String) :
    (except_handler st e (.raisesEH m) att del).state.previous_report
        = st.previous_report ∧
      (except_handler st e (.raisesEH m) att del).delivered = del := by
  simp only [except_handler]
  split
  · exact ⟨rfl, rfl⟩
  · exact ⟨rfl, rfl⟩

/-- The verdict a cycle would format does not depend on the poll cursor:
the cursor only parametrizes the outgoing request, whose outcome is the
oracle `http`. -/
theorem cycleVerdict_cursor_irrelevant (ts ts' : PyVal) (http : HttpOutcome) :
    cycleVerdict ts http = cycleVerdict ts' http := by
  cases http with
  | raises m => rfl
  | resp status reason text json => rfl

/-- Exhaustive case analysis of the `try` body of one cycle, keyed on the
verdict the cycle would format. -/
theorem try_body_cases (st : LoopState) (http : HttpOutcome) (sendV : SendOutcome) :
    (cycleVerdict st.timestamp http = Option.none ∧
      ((∃ e, try_body st http sendV = (.error e, [], [])) ∨
        try_body st http sendV = (.ok st, [], []))) ∨
    (cycleVerdict st.timestamp http = some st.previous_report ∧
      try_body st http sendV = (.ok st, [], [])) ∨
    (∃ v, cycleVerdict st.timestamp http = some v ∧ v ≠ st.previous_report ∧
      ((send_message sendV = .ok true ∧ ∃ response,
          get_api_answer st.timestamp http = .ok response ∧
          try_body st http sendV =
            (.ok ⟨pyDictGetD response "timestamp" st.timestamp, v⟩, [v], [v])) ∨
       (send_message sendV = .ok false ∧ try_body st http sendV = (.ok st, [v], [])) ∨
       (∃ e, send_message sendV = .error e ∧
          try_body st http sendV = (.error e, [v], [])))) := by
  cases hg : get_api_answer st.timestamp http with
  | error e =>
      refine Or.inl ⟨?_, Or.inl ⟨e, ?_⟩⟩ <;> simp [try_body, cycleVerdict, hg]
  | ok response =>
    cases hc : check_response response with
    | error e =>
        refine Or.inl ⟨?_, Or.inl ⟨e, ?_⟩⟩ <;> simp [try_body, cycleVerdict, hg, hc]
    | ok hws =>
      cases hws with
      | nil =>
          refine Or.inl ⟨?_, Or.inr ?_⟩ <;> simp [try_body, cycleVerdict, hg, hc]
      | cons hw rest =>
        cases hp : parse_status hw with
        | error e =>
            refine Or.inl ⟨?_, Or.inl ⟨e, ?_⟩⟩ <;>
              simp [try_body, cycleVerdict, hg, hc, hp, Except.toOption]
        | ok v =>
          by_cases hv : v = st.previous_report
          · refine Or.inr (Or.inl ⟨?_, ?_⟩) <;>
              simp [try_body, cycleVerdict, hg, hc, hp, hv, Except.toOption]
          · refine Or.inr (Or.inr ⟨v, ?_, hv, ?_⟩)
            · simp [cycleVerdict, hg, hc, hp, Except.toOption]
            · cases hs : send_message sendV with
              | error e =>
                  refine Or.inr (Or.inr ⟨e, rfl, ?_⟩)
                  simp [try_body, hg, hc, hp, hv, hs]
              | ok b =>
                cases b with
                | false =>
                    refine Or.inr (Or.inl ⟨rfl, ?_⟩)
                    simp [try_body, hg, hc, hp, hv, hs]
                | true =>
                    refine Or.inl ⟨rfl, response, rfl, ?_⟩
                    simp [try_body, hg, hc, hp, hv, hs]

/-- C1: in every cycle of the poll loop, the poll cursor changes value
only when the cycle formats a verdict that differs from
`previous_report` and its delivery succeeds (the verdict is then the
cycle's one delivered message and becomes the new `previous_report`);
in any cycle where delivery fails or is not attempted the cursor keeps
its prior value. -/
theorem cursor_advances_only_on_delivered_novel_verdict
    (st : LoopState) (http : HttpOutcome) (sendV sendE : SendOutcome)
    (h : (main_cycle st http sendV sendE).state.timestamp ≠ st.timestamp) :
    ∃ v, cycleVerdict st.timestamp http = some v ∧ v ≠ st.previous_report ∧
      send_message sendV = .ok true ∧
      (main_cycle st http sendV sendE).delivered = [v] ∧
      (main_cycle st http sendV sendE).state.previous_report = v := by
  rcases try_body_cases st http sendV with
    ⟨hcv, ⟨e, ht⟩ | ht⟩ | ⟨hcv, ht⟩ |
    ⟨v, hcv, hne, ⟨hs, response, hresp, ht⟩ | ⟨hs, ht⟩ | ⟨e, hs, ht⟩⟩
  · exact absurd (by simp [main_cycle, ht, except_handler_timestamp]) h
  · exact absurd (by simp [main_cycle, ht]) h
  · exact absurd (by simp [main_cycle, ht]) h
  · exact ⟨v, hcv, hne, hs, by simp [main_cycle, ht], by simp [main_cycle, ht]⟩
  · exact absurd (by simp [main_cycle, ht]) h
  · exact absurd (by simp [main_cycle, ht, except_handler_timestamp]) h

/-- C1 witness: Scenario A from the initial state advances the cursor
(to the response timestamp 1000) via one successful novel delivery. -/
theorem cursor_advances_only_on_delivered_novel_verdict_witness :
    ∃ v, cycleVerdict (PyVal.int 0) scenarioAHttp = some v ∧ v ≠ "" ∧
      send_message .success = .ok true ∧
      (main_cycle ⟨PyVal.int 0, ""⟩ scenarioAHttp .success .success).delivered = [v] ∧
      (main_cycle ⟨PyVal.int 0, ""⟩ scenarioAHttp
        .success .success).state.previous_report = v :=
  cursor_advances_only_on_delivered_novel_verdict ⟨PyVal.int 0, ""⟩ scenarioAHttp
    .success .success
    (by
      rw [show (main_cycle ⟨PyVal.int 0, ""⟩ scenarioAHttp
        .success .success).state.timestamp = PyVal.int 1000 from rfl]
      simp)

/-- C6: in every cycle, `previous_report` is updated only immediately
after a successful delivery (on the verdict path or the diagnostic
path): whenever it changed, the new value is exactly the cycle's one
delivered message; a failed or skipped delivery leaves it unchanged. -/
theorem previous_report_updated_only_after_successful_delivery
    (st : LoopState) (http : HttpOutcome) (sendV sendE : SendOutcome)
    (h : (main_cycle st http sendV sendE).state.previous_report ≠ st.previous_report) :
    (main_cycle st http sendV sendE).delivered
      = [(main_cycle st http sendV sendE).state.previous_report] := by
  rcases try_body_cases st http sendV with
    ⟨hcv, ⟨e, ht⟩ | ht⟩ | ⟨hcv, ht⟩ |
    ⟨v, hcv, hne, ⟨hs, response, hresp, ht⟩ | ⟨hs, ht⟩ | ⟨e, hs, ht⟩⟩
  · have hm : main_cycle st http sendV sendE = except_handler st e sendE [] [] := by
      simp [main_cycle, ht]
    rw [hm] at h ⊢
    exact except_handler_delivered st e sendE [] h
  · exact absurd (by simp [main_cycle, ht]) h
  · exact absurd (by simp [main_cycle, ht]) h
  · have hm : main_cycle st http sendV sendE
        = ⟨⟨pyDictGetD response "timestamp" st.timestamp, v⟩, [v], [v], Option.none⟩ := by
      simp [main_cycle, ht]
    rw [hm]
  · exact absurd (by simp [main_cycle, ht]) h
  · have hm : main_cycle st http sendV sendE = except_handler st e sendE [v] [] := by
      simp [main_cycle, ht]
    rw [hm] at h ⊢
    exact except_handler_delivered st e sendE [v] h

/-- C6 witness: in the Scenario A cycle `previous_report` changes, and
its new value is the one delivered message. -/
theorem previous_report_updated_only_after_successful_delivery_witness :
    (main_cycle ⟨PyVal.int 0, ""⟩ scenarioAHttp .success .success).delivered
      = [(main_cycle ⟨PyVal.int 0, ""⟩ scenarioAHttp
          .success .success).state.previous_report] :=
  previous_report_updated_only_after_successful_delivery ⟨PyVal.int 0, ""⟩
    scenarioAHttp .success .success (by decide)

/-- C9: a cycle whose response validates to an empty homeworks list makes
no delivery attempt at all, leaves both the cursor and
`previous_report` unchanged, and returns to the fixed sleep normally. -/
theorem empty_homeworks_cycle_is_noop
    (st : LoopState) (reason text : String) (p : PyVal) (sendV sendE : SendOutcome)
    (hp : check_response p = .ok []) :
    (main_cycle st (.resp 200 reason text p) sendV sendE).attempts = [] ∧
    (main_cycle st (.resp 200 reason text p) sendV sendE).delivered = [] ∧
    (main_cycle st (.resp 200 reason text p) sendV sendE).state.timestamp
        = st.timestamp ∧
    (main_cycle st (.resp 200 reason text p) sendV sendE).state.previous_report
        = st.previous_report ∧
    (main_cycle st (.resp 200 reason text p) sendV sendE).crashed = Option.none := by
  have hg : get_api_answer st.timestamp (.resp 200 reason text p) = .ok p := by
    simp [get_api_answer]
  have ht : try_body st (.resp 200 reason text p) sendV = (.ok st, [], []) := by
    simp [try_body, hg, hp]
  simp [main_cycle, ht]

/-- C9 witness: the payload with an empty homeworks list is a no-op
cycle (Scenario C). -/
theorem empty_homeworks_cycle_is_noop_witness :
    (main_cycle ⟨PyVal.int 7, "x"⟩
        (.resp 200 "OK" "" (.dict [("homeworks", .list [])]))
        .success .success).attempts = [] ∧
    (main_cycle ⟨PyVal.int 7, "x"⟩
        (.resp 200 "OK" "" (.dict [("homeworks", .list [])]))
        .success .success).delivered = [] ∧
    (main_cycle ⟨PyVal.int 7, "x"⟩
        (.resp 200 "OK" "" (.dict [("homeworks", .list [])]))
        .success .success).state.timestamp = PyVal.int 7 ∧
    (main_cycle ⟨PyVal.int 7, "x"⟩
        (.resp 200 "OK" "" (.dict [("homeworks", .list [])]))
        .success .success).state.previous_report = "x" ∧
    (main_cycle ⟨PyVal.int 7, "x"⟩
        (.resp 200 "OK" "" (.dict [("homeworks", .list [])]))
        .success .success).crashed = Option.none :=
  empty_homeworks_cycle_is_noop ⟨PyVal.int 7, "x"⟩ "OK" ""
    (.dict [("homeworks", .list [])]) .success .success rfl

/-- C3 counterexample: with a duplicate verdict and a response-supplied
`timestamp` of 1000, the cycle makes no delivery attempt, but the poll
cursor stays 0 instead of advancing to 1000 — the cursor-advancing
assignment sits inside the `verdict != previous_report and
send_message(...)` branch, which a duplicate verdict skips entirely. -/
theorem duplicate_verdict_cursor_counterexample :
    (main_cycle ⟨PyVal.int 0, scenarioAVerdict⟩ scenarioAHttp
        .success .success).attempts = [] ∧
    (main_cycle ⟨PyVal.int 0, scenarioAVerdict⟩ scenarioAHttp
        .success .success).state.timestamp = PyVal.int 0 ∧
    (main_cycle ⟨PyVal.int 0, scenarioAVerdict⟩ scenarioAHttp
        .success .success).state.timestamp ≠ PyVal.int 1000 :=
  ⟨rfl, rfl, by
    rw [show (main_cycle ⟨PyVal.int 0, scenarioAVerdict⟩ scenarioAHttp
      .success .success).state.timestamp = PyVal.int 0 from rfl]
    simp⟩

/-- C3 (amended): when a successful cycle yields a verdict equal to
`previous_report`, the loop does not notify and also does not advance
the cursor, whether or not the response carries a `timestamp` field:
the whole cycle is a no-op. -/
theorem duplicate_verdict_no_notify_no_advance
    (st : LoopState) (http : HttpOutcome) (sendV sendE : SendOutcome)
    (hdup : cycleVerdict st.timestamp http = some st.previous_report) :
    (main_cycle st http sendV sendE).attempts = [] ∧
    (main_cycle st http sendV sendE).delivered = [] ∧
    (main_cycle st http sendV sendE).state.timestamp = st.timestamp ∧
    (main_cycle st http sendV sendE).state.previous_report = st.previous_report ∧
    (main_cycle st http sendV sendE).crashed = Option.none := by
  rcases try_body_cases st http sendV with
    ⟨hcv, _⟩ | ⟨hcv, ht⟩ | ⟨v, hcv, hne, _⟩
  · rw [hdup] at hcv; cases hcv
  · simp [main_cycle, ht]
  · rw [hdup] at hcv
    exact absurd (Option.some.inj hcv).symm hne

/-- C3 (amended) witness: the duplicate Scenario A cycle is a no-op even
though the response carries `timestamp = 1000`. -/
theorem duplicate_verdict_no_notify_no_advance_witness :
    (main_cycle ⟨PyVal.int 0, scenarioAVerdict⟩ scenarioAHttp
        .success .success).attempts = [] ∧
    (main_cycle ⟨PyVal.int 0, scenarioAVerdict⟩ scenarioAHttp
        .success .success).delivered = [] ∧
    (main_cycle ⟨PyVal.int 0, scenarioAVerdict⟩ scenarioAHttp
        .success .success).state.timestamp = PyVal.int 0 ∧
    (main_cycle ⟨PyVal.int 0, scenarioAVerdict⟩ scenarioAHttp
        .success .success).state.previous_report = scenarioAVerdict ∧
    (main_cycle ⟨PyVal.int 0, scenarioAVerdict⟩ scenarioAHttp
        .success .success).crashed = Option.none :=
  duplicate_verdict_no_notify_no_advance ⟨PyVal.int 0, scenarioAVerdict⟩
    scenarioAHttp .success .success rfl

/-- C5 counterexample: a cycle whose poll fails at the transport level
and whose diagnostic delivery raises a non-`ExceptionHandler` exception
terminates the loop: the exception escapes the `except` block (only the
`finally` sleep still runs), so the next cycle never begins. -/
theorem error_cycle_terminates_loop_counterexample :
    (main_cycle ⟨PyVal.int 0, ""⟩ (.raises "connection refused") .success
        (.raisesOther "ApiTelegramException"
          "A request to the Telegram API was unsuccessful")).crashed
      = some (.other "ApiTelegramException"
          "A request to the Telegram API was unsuccessful") := rfl

/-- C5 (amended): every exception raised inside the cycle's `try` body —
transport, remote-status, shape, unknown-status, or a delivery
exception on the verdict path — is caught, and a delivery failure that
`send_message` converts to `False` never escapes either; the loop then
reaches the sleep and begins the next cycle.  Only an exception raised
by the bot while the handler reports the error diagnostic escapes, as
the counterexample shows. -/
theorem steady_state_errors_are_caught
    (st : LoopState) (http : HttpOutcome) (sendV sendE : SendOutcome)
    (h : ∀ cls msg, sendE ≠ .raisesOther cls msg) :
    (main_cycle st http sendV sendE).crashed = Option.none := by
  rcases try_body_cases st http sendV with
    ⟨hcv, ⟨e, ht⟩ | ht⟩ | ⟨hcv, ht⟩ |
    ⟨v, hcv, hne, ⟨hs, response, hresp, ht⟩ | ⟨hs, ht⟩ | ⟨e, hs, ht⟩⟩
  · simp [main_cycle, ht, except_handler_no_crash st e sendE [] [] h]
  · simp [main_cycle, ht]
  · simp [main_cycle, ht]
  · simp [main_cycle, ht]
  · simp [main_cycle, ht]
  · simp [main_cycle, ht, except_handler_no_crash st e sendE [v] [] h]

/-- C5 (amended) witness: a transport-failure cycle whose diagnostic
delivery does not raise returns to the sleep and the loop continues. -/
theorem steady_state_errors_are_caught_witness :
    (main_cycle ⟨PyVal.int 0, ""⟩ (.raises "connection refused")
        .success .success).crashed = Option.none :=
  steady_state_errors_are_caught ⟨PyVal.int 0, ""⟩ (.raises "connection refused")
    .success .success (fun cls msg hh => SendOutcome.noConfusion hh)

/-- C4 counterexample: an exception that is not an instance of
`telebot.ExceptionHandler` (e.g. a Telegram API error) is not converted
to `False`: `send_message` propagates it, the loop's blanket handler
catches it, and `previous_report` is then updated — to the error
diagnostic — rather than left unchanged. -/
theorem send_message_swallows_all_exceptions_counterexample :
    send_message (.raisesOther "ApiTelegramException" "Bad Request")
        = .error (.other "ApiTelegramException" "Bad Request") ∧
    (main_cycle ⟨PyVal.int 0, ""⟩ scenarioAHttp
        (.raisesOther "ApiTelegramException" "Bad Request")
        .success).state.previous_report
      = "Сбой в работе программы: Bad Request" ∧
    "Сбой в работе программы: Bad Request" ≠ "" :=
  ⟨rfl, rfl, by decide⟩

/-- C4 (amended): `send_message` returns `False` exactly for delivery
exceptions that are instances of `telebot.ExceptionHandler` — the only
class its `except` clause names; any other transport exception
propagates to the caller.  When every delivery failure in a cycle is of
the caught kind, nothing is delivered and the caller leaves
`previous_report` unchanged. -/
theorem send_message_returns_false_only_for_handled_exceptions :
    (∀ m, send_message (.raisesEH m) = .ok false) ∧
    (∀ cls m, send_message (.raisesOther cls m) = .error (.other cls m)) ∧
    (∀ (st : LoopState) (http : HttpOutcome) (m m2 : String),
      (main_cycle st http (.raisesEH m) (.raisesEH m2)).state.previous_report
          = st.previous_report ∧
        (main_cycle st http (.raisesEH m) (.raisesEH m2)).delivered = []) := by
  refine ⟨fun m => rfl, fun cls m => rfl, fun st http m m2 => ?_⟩
  rcases try_body_cases st http (.raisesEH m) with
    ⟨hcv, ⟨e, ht⟩ | ht⟩ | ⟨hcv, ht⟩ |
    ⟨v, hcv, hne, ⟨hs, response, hresp, ht⟩ | ⟨hs, ht⟩ | ⟨e, hs, ht⟩⟩
  · have hm : main_cycle st http (.raisesEH m) (.raisesEH m2)
        = except_handler st e (.raisesEH m2) [] [] := by simp [main_cycle, ht]
    rw [hm]
    exact except_handler_eh st e m2 [] []
  · simp [main_cycle, ht]
  · simp [main_cycle, ht]
  · simp [send_message] at hs
  · simp [main_cycle, ht]
  · simp [send_message] at hs

/-- C2: feeding the identical successful payload to two consecutive
cycles triggers exactly one delivery: the first cycle attempts and
delivers the (novel) verdict, which becomes `previous_report`; the
second cycle formats the same string, finds it equal to
`previous_report`, and suppresses it with no delivery attempt. -/
theorem identical_payload_twice_delivers_once
    (st : LoopState) (http : HttpOutcome) (v : String)
    (sendE sendV2 sendE2 : SendOutcome)
    (hv : cycleVerdict st.timestamp http = some v)
    (hnew : v ≠ st.previous_report) :
    (main_cycle st http .success sendE).attempts = [v] ∧
    (main_cycle st http .success sendE).delivered = [v] ∧
    (main_cycle st http .success sendE).state.previous_report = v ∧
    cycleVerdict (main_cycle st http .success sendE).state.timestamp http
        = some (main_cycle st http .success sendE).state.previous_report ∧
    (main_cycle (main_cycle st http .success sendE).state http
        sendV2 sendE2).attempts = [] ∧
    (main_cycle (main_cycle st http .success sendE).state http
        sendV2 sendE2).delivered = [] := by
  rcases try_body_cases st http .success with
    ⟨hcv, hrest⟩ | ⟨hcv, ht⟩ |
    ⟨v', hcv, hne', ⟨hs, response, hresp, ht⟩ | ⟨hs, ht2⟩ | ⟨e, hs, ht2⟩⟩
  · rw [hv] at hcv; cases hcv
  · rw [hv] at hcv; exact absurd (Option.some.inj hcv) hnew
  · have hveq : v' = v := Option.some.inj (hcv.symm.trans hv)
    subst hveq
    have hm1 : main_cycle st http .success sendE
        = ⟨⟨pyDictGetD response "timestamp" st.timestamp, v'⟩, [v'], [v'], Option.none⟩ := by
      simp [main_cycle, ht]
    have hv1 : cycleVerdict (pyDictGetD response "timestamp" st.timestamp) http
        = some v' :=
      (cycleVerdict_cursor_irrelevant _ st.timestamp http).trans hv
    have h2 : main_cycle ⟨pyDictGetD response "timestamp" st.timestamp, v'⟩ http
        sendV2 sendE2
        = ⟨⟨pyDictGetD response "timestamp" st.timestamp, v'⟩, [], [], Option.none⟩ := by
      rcases try_body_cases ⟨pyDictGetD response "timestamp" st.timestamp, v'⟩ http
          sendV2 with
        ⟨hcv2, _⟩ | ⟨hcv2, ht2⟩ | ⟨v'', hcv2, hne2, _⟩
      · exact absurd (hv1.symm.trans hcv2) (by simp)
      · simp [main_cycle, ht2]
      · exact absurd (Option.some.inj (hv1.symm.trans hcv2)).symm hne2
    rw [hm1]
    refine ⟨rfl, rfl, rfl, hv1, ?_, ?_⟩
    · show (main_cycle ⟨pyDictGetD response "timestamp" st.timestamp, v'⟩ http
        sendV2 sendE2).attempts = []
      rw [h2]
    · show (main_cycle ⟨pyDictGetD response "timestamp" st.timestamp, v'⟩ http
        sendV2 sendE2).delivered = []
      rw [h2]
  · simp [send_message] at hs
  · simp [send_message] at hs

/-- C2 witness: Scenarios A then B — the Scenario A payload fed twice
from the initial state delivers once and the second cycle makes no
attempt. -/
theorem identical_payload_twice_delivers_once_witness :
    (main_cycle ⟨PyVal.int 0, ""⟩ scenarioAHttp .success .success).attempts
        = [scenarioAVerdict] ∧
    (main_cycle (main_cycle ⟨PyVal.int 0, ""⟩ scenarioAHttp .success .success).state
        scenarioAHttp .success .success).attempts = [] :=
  ⟨(identical_payload_twice_delivers_once ⟨PyVal.int 0, ""⟩ scenarioAHttp
      scenarioAVerdict .success .success .success rfl (by decide)).1,
   (identical_payload_twice_delivers_once ⟨PyVal.int 0, ""⟩ scenarioAHttp
      scenarioAVerdict .success .success .success rfl (by decide)).2.2.2.2.1⟩

/-- C7: `check_response` fails exactly when the payload is not a dict,
lacks the key `homeworks`, or maps it to a non-list — checked in that
order, each with its own error — and otherwise returns the `homeworks`
sequence, including when it is empty. -/
theorem check_response_shape_contract (response : PyVal) :
    ((∀ kvs, response ≠ .dict kvs) →
      check_response response = .error (.typeError "Response is not a dictionary")) ∧
    (∀ kvs, response = .dict kvs → kvs.lookup "homeworks" = Option.none →
      check_response response
        = .error (.keyError "Failed to get \"homeworks\" in response JSON object")) ∧
    (∀ kvs w, response = .dict kvs → kvs.lookup "homeworks" = some w →
      (∀ xs, w ≠ .list xs) →
      check_response response
        = .error (.typeError "\"response[homeworks]\" is not a list]\"")) ∧
    (∀ kvs xs, response = .dict kvs → kvs.lookup "homeworks" = some (.list xs) →
      check_response response = .ok xs) := by
  refine ⟨?_, ?_, ?_, ?_⟩
  · intro hnd
    cases response <;> first | rfl | exact absurd rfl (hnd _)
  · intro kvs h hl
    subst h
    simp [check_response, hl]
  · intro kvs w h hl hnl
    subst h
    cases w <;> first | exact absurd rfl (hnl _) | simp [check_response, hl]
  · intro kvs xs h hl
    subst h
    simp [check_response, hl]

/-- C7 witness: an empty homeworks list is accepted, and a non-mapping
payload fails with the not-a-dictionary error. -/
theorem check_response_shape_contract_witness :
    check_response (.dict [("homeworks", .list [])]) = .ok [] ∧
    check_response (.int 5) = .error (.typeError "Response is not a dictionary") :=
  ⟨(check_response_shape_contract _).2.2.2 [("homeworks", .list [])] [] rfl rfl,
   (check_response_shape_contract _).1 (fun kvs h => PyVal.noConfusion h)⟩

/-- C8: a record whose `status` value is a string outside the verdict
table makes `parse_status` fail with the unknown-status error carrying
that value — the status checks precede the `homework_name` check, so
this holds whether or not the name is present — and no notification
string is constructed. -/
theorem parse_status_unknown_status (kvs : List (String × PyVal)) (s : String)
    (hs : kvs.lookup "status" = some (.str s))
    (hunk : HOMEWORK_VERDICTS.lookup s = Option.none) :
    parse_status (.dict kvs)
      = .error (.valueError ("Unknown homework status: " ++ s)) := by
  simp [parse_status, pyIn, pyGetItem, inVerdicts, pyStr, hs, hunk]

/-- C8 witness: Scenario E's unknown status fails with the carried value
even though `homework_name` is absent from the record. -/
theorem parse_status_unknown_status_witness :
    parse_status (.dict [("status", .str "unknown_value")])
      = .error (.valueError "Unknown homework status: unknown_value") :=
  parse_status_unknown_status [("status", .str "unknown_value")] "unknown_value"
    rfl rfl

/-- The list built by `check_tokens`' collection loop, in closed form:
one entry per falsy credential, in declaration order. -/
theorem missing_tokens_eq (p t c : Option String) :
    missing_tokens p t c
      = (if tokenFalsy p then ["PRACTICUM_TOKEN"] else []) ++
        (if tokenFalsy t then ["TELEGRAM_TOKEN"] else []) ++
        (if tokenFalsy c then ["TELEGRAM_CHAT_ID"] else []) := by
  cases hp : tokenFalsy p <;> cases ht : tokenFalsy t <;> cases hc : tokenFalsy c <;>
    simp [missing_tokens, hp, ht, hc]

/-- `check_tokens` depends on each credential only through its
falsiness. -/
theorem check_tokens_congr (p p' t t' c c' : Option String)
    (hp : tokenFalsy p = tokenFalsy p') (ht : tokenFalsy t = tokenFalsy t')
    (hc : tokenFalsy c = tokenFalsy c') :
    check_tokens p t c = check_tokens p' t' c' := by
  have hm : missing_tokens p t c = missing_tokens p' t' c' := by
    rw [missing_tokens_eq, missing_tokens_eq, hp, ht, hc]
  simp [check_tokens, hm]

/-- C10: an empty-string credential is treated exactly like an absent
one; whenever any of the three credentials is `None` or empty,
`check_tokens` raises (so `main` never enters the poll loop) after
logging a line naming every missing credential, not only the first. -/
theorem check_tokens_empty_like_absent (p t c : Option String)
    (h : p = Option.none ∨ p = some "" ∨ t = Option.none ∨ t = some "" ∨
         c = Option.none ∨ c = some "") :
    (check_tokens p t c).result = .error (.keyError "Not all tokens are present.") ∧
    main_enters_loop p t c = false ∧
    (check_tokens p t c).criticalLog
      = some ("Отсутствуют следующие токены: " ++ String.intercalate ", "
          ((if tokenFalsy p then ["PRACTICUM_TOKEN"] else []) ++
           (if tokenFalsy t then ["TELEGRAM_TOKEN"] else []) ++
           (if tokenFalsy c then ["TELEGRAM_CHAT_ID"] else []))) ∧
    check_tokens p t c
      = check_tokens (if tokenFalsy p then Option.none else p)
          (if tokenFalsy t then Option.none else t)
          (if tokenFalsy c then Option.none else c) := by
  have hfal : tokenFalsy p = true ∨ tokenFalsy t = true ∨ tokenFalsy c = true := by
    rcases h with h | h | h | h | h | h <;> subst h <;> simp [tokenFalsy]
  have hne : (missing_tokens p t c).isEmpty = false := by
    rw [missing_tokens_eq]
    cases hp2 : tokenFalsy p <;> cases ht2 : tokenFalsy t <;> cases hc2 : tokenFalsy c <;>
      simp_all
  have hct : check_tokens p t c
      = ⟨some ("Отсутствуют следующие токены: " ++ String.intercalate ", "
            (missing_tokens p t c)),
         .error (.keyError "Not all tokens are present.")⟩ := by
    simp [check_tokens, hne]
  have h1 : tokenFalsy p = tokenFalsy (if tokenFalsy p then Option.none else p) := by
    cases hp2 : tokenFalsy p with
    | true => simp [hp2, tokenFalsy]
    | false => simp [hp2]
  have h2 : tokenFalsy t = tokenFalsy (if tokenFalsy t then Option.none else t) := by
    cases ht2 : tokenFalsy t with
    | true => simp [ht2, tokenFalsy]
    | false => simp [ht2]
  have h3 : tokenFalsy c = tokenFalsy (if tokenFalsy c then Option.none else c) := by
    cases hc2 : tokenFalsy c with
    | true => simp [hc2, tokenFalsy]
    | false => simp [hc2]
  refine ⟨?_, ?_, ?_, check_tokens_congr p _ t _ c _ h1 h2 h3⟩
  · rw [hct]
  · simp [main_enters_loop, hct]
  · rw [hct, missing_tokens_eq]

/-- C10 witness: with the API token unset and the chat id empty, startup
fails before the loop and the log names both missing credentials. -/
theorem check_tokens_empty_like_absent_witness :
    (check_tokens Option.none (some "x") (some "")).result
        = .error (.keyError "Not all tokens are present.") ∧
    main_enters_loop Option.none (some "x") (some "") = false ∧
    (check_tokens Option.none (some "x") (some "")).criticalLog
      = some "Отсутствуют следующие токены: PRACTICUM_TOKEN, TELEGRAM_CHAT_ID" :=
  ⟨(check_tokens_empty_like_absent Option.none (some "x") (some "") (Or.inl rfl)).1,
   (check_tokens_empty_like_absent Option.none (some "x") (some "") (Or.inl rfl)).2.1,
   by
     have h3 := (check_tokens_empty_like_absent Option.none (some "x") (some "")
       (Or.inl rfl)).2.2.1
     rw [h3]
     decide⟩

end HomeworkBot
